import Mathlib

set_option maxRecDepth 100000

/-!
Verification of the multi-source search aggregation pipeline of the
EGFR research agent repository.

The Python sources are shallowly embedded: every Python function that a
claim touches is translated into an executable Lean definition operating
on `String` (viewed as its list of characters), `List`, `Option`,
`Except` (for fallible calls), and `ℚ` (for relevance scores).  External
effects (HTTP requests, LLM calls) are abstracted as explicit oracle
parameters of `Except`-returning type, so that "the call raised" is the
`.error` case and the surrounding control flow (try/except blocks,
batching loops, guards) is translated faithfully.
-/

namespace EgfrAgent

/-! ## Python string primitives -/

/-- Python `s.lower()` (ASCII case folding, as used throughout the repo). -/
def pyLower (s : String) : String := ⟨s.data.map Char.toLower⟩

/-- Python `s.upper()`. -/
def pyUpper (s : String) : String := ⟨s.data.map Char.toUpper⟩

/-- Boolean prefix test on character lists. -/
def hasPre : List Char → List Char → Bool
  | [], _ => true
  | _ :: _, [] => false
  | a :: as, b :: bs => a == b && hasPre as bs

/-- Substring containment on character lists: Python `needle in hay`. -/
def containsSub (hay needle : List Char) : Bool :=
  match hay with
  | [] => hasPre needle []
  | _ :: t => hasPre needle hay || containsSub t needle

/-- Python `needle in hay` on strings. -/
def pyIn (needle hay : String) : Bool := containsSub hay.data needle.data

/-- Python `s.strip()`: drop leading and trailing whitespace. -/
def pyStrip (s : String) : String :=
  ⟨(((s.data.dropWhile Char.isWhitespace).reverse.dropWhile Char.isWhitespace).reverse)⟩

/-- Python `s[:n]` character truncation. -/
def pyTake (s : String) (n : Nat) : String := ⟨s.data.take n⟩

/-- Python `len(s)` in characters. -/
def pyLen (s : String) : Nat := s.data.length

/-- Python `s.startswith(p)`. -/
def pyStartsWith (p s : String) : Bool := hasPre p.data s.data

/-- Python `s.replace(c, "")` for a single character: remove every occurrence. -/
def removeChar (c : Char) (s : String) : String := ⟨s.data.filter (· ≠ c)⟩

/-- Python `s.replace('[', '').replace(']', '')`, the bracket-placeholder
stripping used by the delimited-text parser. -/
def removeBrackets (s : String) : String := removeChar ']' (removeChar '[' s)

/-- Python `s.split(',')`: split at every comma, keeping empty chunks. -/
def splitCommaAux : List Char → List Char → List String
  | [], acc => [⟨acc.reverse⟩]
  | c :: rest, acc =>
    if c = ',' then ⟨acc.reverse⟩ :: splitCommaAux rest []
    else splitCommaAux rest (c :: acc)

/-- Python `s.split(',')`. -/
def pySplitComma (s : String) : List String := splitCommaAux s.data []

/-! ## Data model (`src/core/interfaces.py`) -/

/-- `SearchResultType` enumeration from `interfaces.py`. -/
inductive SearchResultType where
  | case_report
  | clinical_study
  | systematic_review
  | meta_analysis
  | other
deriving DecidableEq, Repr

/-- The closed set of literature-type tags. -/
def allResultTypes : List SearchResultType :=
  [.case_report, .clinical_study, .systematic_review, .meta_analysis, .other]

/-- `SearchResult` dataclass from `interfaces.py`; relevance scores are
embedded as rationals (Python floats at the 1-decimal granularity the code
uses). -/
structure SearchResult where
  title : String
  authors : List String
  journal : String
  publication_date : String
  doi : Option String
  pmid : Option String
  url : String
  abstract : String
  result_type : SearchResultType
  relevance_score : ℚ
deriving DecidableEq, Repr

/-- `ResearchQuery` dataclass from `interfaces.py`. -/
structure ResearchQuery where
  original_question : String
  keywords : List String
  sources : List String
  language : String := "en"
deriving DecidableEq, Repr

/-! ## `src/core/implementations.py` -/

/-- The fixed seven-term lexicon of `SimpleKeywordExtractor`. -/
def medical_keywords : List String :=
  ["osimertinib", "EGFR inhibitor", "glomerulonephritis",
   "acute", "kidney", "nephrotoxicity", "renal"]

/-- `SimpleKeywordExtractor.extract_keywords`. -/
def extract_keywords (question : String) : List String :=
  let question_lower := pyLower question
  let found_keywords := medical_keywords.filter (fun kw => pyIn (pyLower kw) question_lower)
  if found_keywords = [] then ["EGFR inhibitor", "glomerulonephritis"] else found_keywords

/-- `SimpleContentAnalyzer.analyze_relevance`: additive +0.3 per keyword in
the title, +0.2 per keyword in the abstract, capped at 1.0. -/
def analyze_relevance (result : SearchResult) (query : ResearchQuery) : ℚ :=
  let title_lower := pyLower result.title
  let abstract_lower := pyLower result.abstract
  let score := query.keywords.foldl
    (fun sc kw =>
      let kl := pyLower kw
      let sc := if pyIn kl title_lower then sc + mkRat 3 10 else sc
      if pyIn kl abstract_lower then sc + mkRat 2 10 else sc) 0
  min score 1

/-- `SimpleContentAnalyzer.classify_paper_type`. -/
def classify_paper_type (result : SearchResult) : SearchResultType :=
  let title_lower := pyLower result.title
  if pyIn "case report" title_lower then .case_report
  else if pyIn "systematic review" title_lower then .systematic_review
  else if pyIn "meta-analysis" title_lower then .meta_analysis
  else if pyIn "clinical trial" title_lower then .clinical_study
  else .other

/-! ## Closed-form characterization of the additive scorer -/

/-- Number of query keywords occurring (case-insensitively) in a field. -/
def hitCount (keywords : List String) (field : String) : Nat :=
  keywords.countP (fun kw => pyIn (pyLower kw) (pyLower field))

/-! ## Python `sep.join(parts)` -/

/-- Python `sep.join(parts)`. -/
def pyJoin (sep : String) : List String → String
  | [] => ""
  | [p] => p
  | p :: ps => p ++ sep ++ pyJoin sep ps

/-! ## XML document model (ElementTree, as used by `pubmed_search.py`) -/

/-- An ElementTree XML element: tag, attributes, text, direct children. -/
structure XmlElem where
  tag : String
  attrs : List (String × String)
  text : Option String
  children : List XmlElem

/-- ElementTree `e.find(tag)`: first direct child with the given tag. -/
def XmlElem.findChild (e : XmlElem) (t : String) : Option XmlElem :=
  e.children.find? (fun c => c.tag == t)

/-- ElementTree `e.findall(tag)`: all direct children with the given tag. -/
def XmlElem.findAllChildren (e : XmlElem) (t : String) : List XmlElem :=
  e.children.filter (fun c => c.tag == t)

/-- ElementTree `e.get(attr, default)`. -/
def XmlElem.getAttrD (e : XmlElem) (a dflt : String) : String :=
  match e.attrs.find? (fun p => p.1 == a) with
  | some p => p.2
  | none => dflt

/-- ElementTree `e.get(attr)` (default `None`). -/
def XmlElem.getAttrOpt (e : XmlElem) (a : String) : Option String :=
  (e.attrs.find? (fun p => p.1 == a)).map (·.2)

/-! ## `src/core/pubmed_search.py` -/

/-- The per-term decoration `f'"{keyword}"[Title/Abstract]'`. -/
def quoteTA (kw : String) : String := "\"" ++ kw ++ "\"[Title/Abstract]"

/-- Drug-category test of `_build_search_query`. -/
def isDrugKw (kw : String) : Bool :=
  ["osimertinib", "erlotinib", "gefitinib", "egfr inhibitor", "tyrosine kinase"].any
    (fun d => pyIn d (pyLower kw))

/-- Condition-category test of `_build_search_query`. -/
def isCondKw (kw : String) : Bool :=
  ["nephrotoxicity", "glomerulonephritis", "renal", "kidney"].any
    (fun c => pyIn c (pyLower kw))

/-- A parenthesized OR-group: `"(" + " OR ".join(terms) + ")"`. -/
def orGroup (terms : List String) : String := "(" ++ pyJoin " OR " terms ++ ")"

/-- The final combination step of `_build_search_query`: join two or more
groups with AND, keep a single group as is, and fall back to the simple
OR-of-all-terms group when no category matched. -/
def joinQueryParts (fallback : String) : List String → String
  | [] => fallback
  | [p] => p
  | ps => pyJoin " AND " ps

/-- The query computed by `_build_search_query` before the trailing date
filter is appended. -/
def build_query_body (keywords : List String) : String :=
  let drug_terms := (keywords.filter (fun kw => isDrugKw kw)).map quoteTA
  let condition_terms := (keywords.filter (fun kw => !isDrugKw kw && isCondKw kw)).map quoteTA
  let general_terms := (keywords.filter (fun kw => !isDrugKw kw && !isCondKw kw)).map quoteTA
  let query_parts :=
    (if drug_terms.isEmpty then [] else [orGroup drug_terms])
      ++ (if condition_terms.isEmpty then [] else [orGroup condition_terms])
      ++ (if general_terms.isEmpty then [] else [orGroup general_terms])
  joinQueryParts (orGroup (keywords.map quoteTA)) query_parts

/-- `PubMedSearchEngine._build_search_query`. -/
def build_search_query (keywords : List String) : String :=
  build_query_body keywords ++ " AND 2014:2024[pdat]"

/-- `PubMedSearchEngine._get_text_content`. -/
def get_text_content (e : XmlElem) (tag dflt : String) : String :=
  match e.findChild tag with
  | some child =>
    match child.text with
    | some t => if t ≠ "" then pyStrip t else dflt
    | none => dflt
  | none => dflt

/-- `PubMedSearchEngine._parse_document_summary`. -/
def parse_document_summary (doc : XmlElem) : Option SearchResult :=
  let pmid := doc.getAttrD "uid" ""
  let title := get_text_content doc "Title" "Unknown Title"
  let authors :=
    match doc.findChild "AuthorList" with
    | some al =>
      ((al.findAllChildren "Author").take 3).filterMap (fun a =>
        let name := a.getAttrD "Name" ""
        if name ≠ "" then some name else none)
    | none => []
  let authors := if authors = [] then ["Unknown Author"] else authors
  let journal := get_text_content doc "FullJournalName" "Unknown Journal"
  let pub_date := get_text_content doc "PubDate" "Unknown Date"
  let doi :=
    match doc.findChild "ArticleIds" with
    | some ids =>
      (((ids.findAllChildren "ArticleId").find?
          (fun ai => ai.getAttrOpt "IdType" == some "doi")).bind (·.text))
    | none => none
  let url := "https://pubmed.ncbi.nlm.nih.gov/" ++ pmid ++ "/"
  some { title := title
         authors := authors
         journal := journal
         publication_date := pub_date
         doi := doi
         pmid := some pmid
         url := url
         abstract := title
         result_type := .other
         relevance_score := 0 }

/-- Effect oracle for the PubMed backend: `searchIds` models the esearch
HTTP round trip of `_search_paper_ids` (error = raised exception); and
`fetchBatch` models the esummary round trip of `_fetch_batch_details` up
to the list of `DocumentSummary` elements. -/
structure PubMedOracle where
  searchIds : String → Nat → Except String (List String)
  fetchBatch : List String → Except String (List XmlElem)

/-- `PubMedSearchEngine._fetch_batch_details`: fetch one batch, then parse
each `DocumentSummary`, skipping documents whose parse fails. -/
def fetch_batch_details (o : PubMedOracle) (ids : List String) :
    Except String (List SearchResult) :=
  match o.fetchBatch ids with
  | .error e => .error e
  | .ok docs => .ok (docs.filterMap parse_document_summary)

/-- The identifier batches of `_fetch_paper_details`:
`range(0, len(paper_ids), 20)` slicing `paper_ids[i:i+20]`. -/
def batches20 (ids : List String) : List (List String) :=
  (List.range ((ids.length + 19) / 20)).map (fun i => (ids.drop (20 * i)).take 20)

/-- Batch loop of `_fetch_paper_details`: `results.extend(batch_results)`
per batch; an exception in any batch propagates (there is no per-batch
handler). -/
def fetchBatchesLoop (o : PubMedOracle) :
    List (List String) → List SearchResult → Except String (List SearchResult)
  | [], acc => .ok acc
  | b :: bs, acc =>
    match fetch_batch_details o b with
    | .error e => .error e
    | .ok r => fetchBatchesLoop o bs (acc ++ r)

/-- `PubMedSearchEngine._fetch_paper_details`. -/
def fetch_paper_details (o : PubMedOracle) (ids : List String) :
    Except String (List SearchResult) :=
  fetchBatchesLoop o (batches20 ids) []

/-- `PubMedSearchEngine.search`: source guard, then the fallible body
wrapped in the catch-all `except` that returns `[]`. -/
def pubmed_search (o : PubMedOracle) (keywords : List String) (source : String)
    (limit : Nat) : List SearchResult :=
  if pyLower source ≠ "pubmed" then []
  else
    match o.searchIds (build_search_query keywords) limit with
    | .error _ => []
    | .ok paper_ids =>
      if paper_ids = [] then []
      else
        match fetch_paper_details o paper_ids with
        | .error _ => []
        | .ok results => results

/-! ## `src/core/gemini_search.py` -/

/-- Case-insensitive prefix test (regex `re.IGNORECASE` literal match). -/
def hasPreCI (pat s : List Char) : Bool :=
  hasPre (pat.map Char.toLower) (s.map Char.toLower)

/-- Semantics of the tail `\s*(.+?)(?=\n|$)` of the per-field patterns of
`_parse_single_paper`, anchored right after the field marker: the greedy
`\s*` consumes the whitespace run; if anything follows, the lazy group
captures up to the next newline (or end); if only whitespace remains, the
engine backtracks one character so the group is that last whitespace
character; if nothing at all remains the match fails. -/
def matchFieldTail (rest : List Char) : Option (List Char) :=
  let ws := rest.takeWhile Char.isWhitespace
  let after := rest.dropWhile Char.isWhitespace
  match after with
  | [] =>
    match ws.getLast? with
    | some c => some [c]
    | none => none
  | _ => some (after.takeWhile (fun c => c ≠ '\n'))

/-- Semantics of the lazy capture `(.+?)(?=\nType:|$)` of the abstract
field pattern (with `re.DOTALL`): the shortest non-empty prefix of `after`
whose remainder is empty or starts with `"\ntype:"` case-insensitively. -/
def abstractCapture (after : List Char) : List Char :=
  match (List.range (after.length + 1)).find?
      (fun p => decide (1 ≤ p) &&
        (decide (after.drop p = []) || hasPreCI "\ntype:".data (after.drop p))) with
  | some p => after.take p
  | none => after

/-- Tail matcher for `Abstract:\s*(.+?)(?=\nType:|$)`. -/
def matchAbstractTail (rest : List Char) : Option (List Char) :=
  let ws := rest.takeWhile Char.isWhitespace
  let after := rest.dropWhile Char.isWhitespace
  match after with
  | [] =>
    match ws.getLast? with
    | some c => some [c]
    | none => none
  | _ => some (abstractCapture after)

/-- `re.search` of a field pattern: scan left to right for the first
case-insensitive occurrence of the marker whose tail matches. -/
def scanFor (tailMatch : List Char → Option (List Char)) (marker : List Char) :
    List Char → Option (List Char)
  | [] => none
  | c :: rest =>
    if hasPreCI marker (c :: rest) then
      match tailMatch ((c :: rest).drop marker.length) with
      | some g => some g
      | none => scanFor tailMatch marker rest
    else scanFor tailMatch marker rest

/-- Field extraction of `_parse_single_paper`:
`match.group(1).strip() if match else ""`. -/
def getField (text : List Char) (marker : String) : String :=
  match scanFor matchFieldTail marker.data text with
  | some g => pyStrip ⟨g⟩
  | none => ""

/-- Abstract-field extraction (its pattern stops at `\nType:` or end). -/
def getAbstractField (text : List Char) : String :=
  match scanFor matchAbstractTail "Abstract:".data text with
  | some g => pyStrip ⟨g⟩
  | none => ""

/-- `GeminiNativeSearchEngine._map_paper_type`. -/
def map_paper_type (type_str : String) : SearchResultType :=
  let type_lower := pyLower type_str
  if pyIn "case_report" type_lower || pyIn "case report" type_lower then .case_report
  else if pyIn "systematic_review" type_lower || pyIn "systematic review" type_lower then
    .systematic_review
  else if pyIn "meta_analysis" type_lower || pyIn "meta-analysis" type_lower then
    .meta_analysis
  else if pyIn "clinical_study" type_lower || pyIn "clinical study" type_lower then
    .clinical_study
  else .other

/-- `GeminiNativeSearchEngine._parse_single_paper`. -/
def parse_single_paper (paper_text : String) : Option SearchResult :=
  let txt := paper_text.data
  let fTitle := getField txt "Title:"
  let fAuthors := getField txt "Authors:"
  let fJournal := getField txt "Journal:"
  let fYear := getField txt "Year:"
  let fPmid := getField txt "PMID:"
  let fDoi := getField txt "DOI:"
  let fUrl := getField txt "URL:"
  let fAbstract := getAbstractField txt
  let fType := getField txt "Type:"
  let title := pyStrip (removeBrackets fTitle)
  if title = "" ∨ pyLen title < 10 then none
  else
    let authors_str := removeBrackets fAuthors
    let authors := ((pySplitComma authors_str).map pyStrip).filter (fun a => a ≠ "")
    let authors := if authors = [] then ["Unknown Author"] else authors
    let url0 := pyStrip (removeBrackets fUrl)
    let url :=
      if !pyStartsWith "http" url0 then
        if fPmid ≠ "" then "https://pubmed.ncbi.nlm.nih.gov/" ++ fPmid ++ "/" else ""
      else url0
    let journal := let j := pyStrip (removeBrackets fJournal)
                   if j = "" then "Unknown Journal" else j
    let pub_date := let y := pyStrip (removeBrackets fYear)
                    if y = "" then "Unknown" else y
    let doi := let d := pyStrip (removeBrackets fDoi)
               if d = "" then none else some d
    let pmid := let p := pyStrip (removeBrackets fPmid)
                if p = "" then none else some p
    some { title := title
           authors := authors.take 5
           journal := journal
           publication_date := pub_date
           doi := doi
           pmid := pmid
           url := url
           abstract := pyTake fAbstract 500
           result_type := map_paper_type fType
           relevance_score := mkRat 8 10 }

/-- First index `j ≥ start` at which `pat` occurs in `text`. -/
def findFrom (pat text : List Char) (start : Nat) : Option Nat :=
  ((List.range (text.length + 1)).filter
    (fun j => decide (start ≤ j) && hasPre pat (text.drop j))).head?

/-- The slice `text[a:b]`. -/
def sliceChars (text : List Char) (a b : Nat) : List Char :=
  (text.drop a).take (b - a)

/-- `re.findall(r'PAPER_START(.*?)PAPER_END', text, re.DOTALL)`: capture
every (lazily shortest) block between sentinel pairs, scanning left to
right.  The fuel argument strictly exceeds any possible scan position. -/
def splitPapersAux (text : List Char) : Nat → Nat → List (List Char)
  | 0, _ => []
  | fuel + 1, pos =>
    match findFrom "PAPER_START".data text pos with
    | none => []
    | some s =>
      match findFrom "PAPER_END".data text (s + 11) with
      | none => []
      | some e => sliceChars text (s + 11) e :: splitPapersAux text fuel (e + 9)

/-- All sentinel-delimited blocks of an AI response. -/
def splitPapers (text : List Char) : List (List Char) :=
  splitPapersAux text (text.length + 1) 0

/-- All indices at which `pat` occurs in `text`, ascending. -/
def occList (pat text : List Char) : List Nat :=
  (List.range (text.length + 1)).filter (fun i => hasPre pat (text.drop i))

/-- `re.findall(r'Title:.*?(?=Title:|$)', text, re.DOTALL)`: since
`"Title:"` cannot overlap itself, the matches are exactly the segments
between consecutive occurrences (the last running to the end). -/
def fallbackTitleSegs (text : List Char) : List (List Char) :=
  let occs := occList "Title:".data text
  (occs.zip (occs.drop 1 ++ [text.length])).map (fun p => sliceChars text p.1 p.2)

/-- Length of a match of `\d+\.\s*[A-Z]` anchored at the head, if any. -/
def anchorLen (l : List Char) : Option Nat :=
  let ds := l.takeWhile Char.isDigit
  if ds = [] then none
  else
    match l.drop ds.length with
    | '.' :: rest2 =>
      let ws := rest2.takeWhile Char.isWhitespace
      match rest2.drop ws.length with
      | c :: _ =>
        if 'A' ≤ c ∧ c ≤ 'Z' then some (ds.length + 1 + ws.length + 1) else none
      | [] => none
    | _ => none

/-- Anchor positions of the pattern `\d+\.\s*[A-Z].*?(?=\d+\.\s*[A-Z]|$)`. -/
def anchorsIn (text : List Char) : List Nat :=
  (List.range (text.length + 1)).filter (fun i => (anchorLen (text.drop i)).isSome)

/-- Matches of `\d+\.\s*[A-Z].*?(?=\d+\.\s*[A-Z]|$)` starting from anchor
position `a`: each match runs to the next anchor at or past the end of its
own anchor, the last one to the end of the text. -/
def numberedSegsAux (text : List Char) : Nat → Nat → List (List Char)
  | 0, _ => []
  | fuel + 1, a =>
    let la := (anchorLen (text.drop a)).getD 0
    match (anchorsIn text).find? (fun q => a + la ≤ q) with
    | some q => sliceChars text a q :: numberedSegsAux text fuel q
    | none => [sliceChars text a text.length]

/-- All matches of the numbered-list fallback pattern. -/
def numberedSegs (text : List Char) : List (List Char) :=
  match (anchorsIn text).head? with
  | none => []
  | some a0 => numberedSegsAux text (text.length + 1) a0

/-- Length of a match of `\n\d+\.` anchored at the head, if any. -/
def numDotLen (l : List Char) : Option Nat :=
  match l with
  | '\n' :: rest =>
    let ds := rest.takeWhile Char.isDigit
    if ds = [] then none
    else
      match rest.drop ds.length with
      | '.' :: _ => some (1 + ds.length + 1)
      | _ => none
  | _ => none

/-- `re.split(r'\n\d+\.', text)`: split at every (non-overlapping,
leftmost) match. -/
def splitNumDotAux (text : List Char) : Nat → List Char → List (List Char)
  | 0, acc => [acc.reverse]
  | fuel + 1, acc =>
    match text with
    | [] => [acc.reverse]
    | c :: rest =>
      match numDotLen text with
      | some n => acc.reverse :: splitNumDotAux (text.drop n) fuel []
      | none => splitNumDotAux rest fuel (c :: acc)

/-- `re.split(r'\n\d+\.', text)`. -/
def splitNumDot (text : List Char) : List (List Char) :=
  splitNumDotAux text (text.length + 1) []

/-- `GeminiNativeSearchEngine._fallback_parse`. -/
def fallback_parse (text : List Char) : List (List Char) :=
  let m1 := fallbackTitleSegs text
  if 1 < m1.length then m1
  else
    let m2 := numberedSegs text
    if 1 < m2.length then m2
    else
      (splitNumDot text).filterMap (fun s =>
        let st := pyStrip ⟨s⟩
        if 100 < pyLen st then some st.data else none)

/-- `GeminiNativeSearchEngine._parse_ai_response`: primary sentinel split,
fallback heuristics when no block is found, then per-block parsing with
failing blocks skipped. -/
def parse_ai_response (ai_response : String) : List SearchResult :=
  let paper_matches := splitPapers ai_response.data
  let paper_matches :=
    if paper_matches = [] then fallback_parse ai_response.data else paper_matches
  paper_matches.filterMap (fun ptext => parse_single_paper (pyStrip ⟨ptext⟩))

/-- Effect oracle for the AI-prompted backend: `callApi` models the whole
`_call_gemini_search` HTTP round trip (error = any raised exception,
including non-200 status and missing candidates). -/
structure GeminiOracle where
  callApi : String → Except String String

/-- `GeminiNativeSearchEngine._build_search_prompt`; `current_year` models
`datetime.now().year`. -/
def build_search_prompt (current_year : Nat) (keywords : List String)
    (source : String) (limit : Nat) : String :=
  let keywords_str := pyJoin ", " keywords
  if pyLower source = "pubmed" then
    "\nSearch PubMed and medical databases for research papers about: " ++ keywords_str
      ++ "\n\nRequirements:\n- Focus on papers from " ++ toString (current_year - 3) ++ "-"
      ++ toString current_year ++ " (recent 3 years)\n- Find exactly "
      ++ toString (min limit 20)
      ++ " most relevant papers\n- Include case reports, clinical studies, systematic reviews"
      ++ "\n- Prioritize papers with EGFR inhibitor nephrotoxicity focus"
      ++ "\n\nFor each paper, provide this EXACT format:\nPAPER_START"
      ++ "\nTitle: [exact paper title]\nAuthors: [author1, author2, author3]"
      ++ "\nJournal: [journal name]\nYear: [publication year]"
      ++ "\nPMID: [PubMed ID if available]\nDOI: [DOI if available]\nURL: [direct link]"
      ++ "\nAbstract: [brief abstract or summary]"
      ++ "\nType: [case_report/clinical_study/systematic_review/meta_analysis/other]"
      ++ "\nPAPER_END\n\nSearch now and provide real, current papers in the exact format above.\n"
  else if pyLower source = "google scholar" then
    "\nSearch Google Scholar for academic papers about: " ++ keywords_str
      ++ "\n\nRequirements:\n- Recent papers (" ++ toString (current_year - 3) ++ "-"
      ++ toString current_year ++ ")\n- Find exactly " ++ toString (min limit 15)
      ++ " most relevant papers\n- Focus on peer-reviewed medical literature"
      ++ "\n- Include nephrology and oncology journals"
      ++ "\n\nFor each paper, provide this EXACT format:\nPAPER_START"
      ++ "\nTitle: [exact paper title]\nAuthors: [author1, author2, author3]"
      ++ "\nJournal: [journal name]\nYear: [publication year]"
      ++ "\nPMID: [PubMed ID if available]  \nDOI: [DOI if available]"
      ++ "\nURL: [Google Scholar or journal URL]"
      ++ "\nAbstract: [brief abstract or summary]"
      ++ "\nType: [case_report/clinical_study/systematic_review/meta_analysis/other]"
      ++ "\nPAPER_END\n\nSearch now and provide real papers in the exact format above.\n"
  else
    "\nSearch academic databases for papers about: " ++ keywords_str
      ++ "\n\nFind " ++ toString (min limit 15) ++ " most relevant recent papers (2020-"
      ++ toString current_year ++ ") and provide in this EXACT format:\n\nPAPER_START"
      ++ "\nTitle: [exact paper title]\nAuthors: [author names]\nJournal: [journal name]"
      ++ "\nYear: [year]\nPMID: [if available]\nDOI: [if available]\nURL: [link]"
      ++ "\nAbstract: [summary]\nType: [paper type]"
      ++ "\nPAPER_END\n\nSearch now and provide real papers.\n"

/-- `GeminiNativeSearchEngine.search`. -/
def gemini_search (o : GeminiOracle) (current_year : Nat) (keywords : List String)
    (source : String) (limit : Nat) : List SearchResult :=
  if !(["google scholar", "pubmed", "academic search"].contains (pyLower source)) then []
  else
    match o.callApi (build_search_prompt current_year keywords source limit) with
    | .error _ => []
    | .ok ai_response => (parse_ai_response ai_response).take limit

/-! ## `src/core/scholar_scraper.py` -/

/-- Raw per-result dictionary produced by
`GoogleScholarScraper._parse_single_result`. -/
structure RawScholarResult where
  title : String
  url : String
  snippet : String
  domain : String
  authors : List String
  year : String
deriving DecidableEq, Repr

/-- One BeautifulSoup result container (`div.tF2Cxc`), reduced to the four
queries `_parse_single_result` makes on it: the text of the first
`h3.LC20lb`, the first `a` element (with its optional `href`), the text of
the first `div.VwiC3b`, and the text of the first `cite`. -/
structure ScholarContainer where
  titleText : Option String
  linkHref : Option (Option String)
  snippetText : Option String
  citeText : Option String

/-- Regex word character (`\w`). -/
def isWordChar (c : Char) : Bool := c.isAlphanum || c = '_'

/-- ASCII `[A-Z]`. -/
def isUpperAZ (c : Char) : Bool := 'A' ≤ c && c ≤ 'Z'

/-- ASCII `[a-z]`. -/
def isLowerAZ (c : Char) : Bool := 'a' ≤ c && c ≤ 'z'

/-- A match of `\b(20[0-2][0-9])\b` at position `i` of `l`, if any. -/
def yearAt (l : List Char) (i : Nat) : Option String :=
  match l.drop i with
  | c1 :: c2 :: c3 :: c4 :: rest =>
    if c1 = '2' ∧ c2 = '0' ∧ '0' ≤ c3 ∧ c3 ≤ '2' ∧ c4.isDigit
        ∧ (i = 0 ∨ (l.get? (i - 1)).all (fun c => !isWordChar c))
        ∧ (rest.head?.all (fun c => !isWordChar c)) then
      some ⟨[c1, c2, c3, c4]⟩
    else none
  | _ => none

/-- `GoogleScholarScraper._extract_year_from_snippet`. -/
def extract_year_from_snippet (snippet : String) : String :=
  match ((List.range (snippet.data.length + 1)).filterMap
      (fun i => yearAt snippet.data i)).head? with
  | some y => y
  | none => "Unknown"

/-- Length of a match of `[A-Z][a-z]+ [A-Z][a-z]+` at the head. -/
def namePairLen (l : List Char) : Option Nat :=
  match l with
  | c :: rest =>
    if isUpperAZ c then
      let ls := rest.takeWhile isLowerAZ
      if ls = [] then none
      else
        match rest.drop ls.length with
        | ' ' :: c2 :: rest2 =>
          if isUpperAZ c2 then
            let ls2 := rest2.takeWhile isLowerAZ
            if ls2 = [] then none else some (1 + ls.length + 1 + 1 + ls2.length)
          else none
        | _ => none
    else none
  | [] => none

/-- Length of a match of `[A-Z]\. [A-Z][a-z]+` at the head. -/
def initialNameLen (l : List Char) : Option Nat :=
  match l with
  | c1 :: '.' :: ' ' :: c2 :: rest =>
    if isUpperAZ c1 && isUpperAZ c2 then
      let ls := rest.takeWhile isLowerAZ
      if ls = [] then none else some (4 + ls.length)
    else none
  | _ => none

/-- Greedy repetition `(?:, <elem>)*`: total length consumed. -/
def commaRepLen (elemLen : List Char → Option Nat) : Nat → List Char → Nat
  | 0, _ => 0
  | fuel + 1, l =>
    match l with
    | ',' :: ' ' :: rest =>
      match elemLen rest with
      | some n => 2 + n + commaRepLen elemLen fuel (rest.drop n)
      | none => 0
    | _ => 0

/-- `re.search` for `<elem>(?:, <elem>)*`: the leftmost match. -/
def findAuthorsMatch (elemLen : List Char → Option Nat) (l : List Char) : Option String :=
  ((List.range (l.length + 1)).filterMap (fun i =>
    match elemLen (l.drop i) with
    | some n =>
      let total := n + commaRepLen elemLen (l.length + 1) (l.drop (i + n))
      some (⟨sliceChars l i (i + total)⟩ : String)
    | none => none)).head?

/-- `GoogleScholarScraper._extract_authors_from_snippet`. -/
def extract_authors_from_snippet (snippet : String) : List String :=
  match findAuthorsMatch namePairLen snippet.data with
  | some s => (pySplitComma s).map pyStrip
  | none =>
    match findAuthorsMatch initialNameLen snippet.data with
    | some s => (pySplitComma s).map pyStrip
    | none => ["Unknown Author"]

/-- `GoogleScholarScraper._parse_single_result`: a container missing the
title heading or the link is dropped. -/
def parse_single_result (c : ScholarContainer) : Option RawScholarResult :=
  match c.titleText with
  | none => none
  | some t =>
    match c.linkHref with
    | none => none
    | some href =>
      let snippet := match c.snippetText with
                     | some s => pyStrip s
                     | none => ""
      let domain := match c.citeText with
                    | some s => pyStrip s
                    | none => ""
      some { title := pyStrip t
             url := href.getD ""
             snippet := snippet
             domain := domain
             authors := []
             year := extract_year_from_snippet snippet }

/-- `GoogleScholarScraper._convert_to_search_results`. -/
def convert_to_search_results (raw_results : List RawScholarResult) : List SearchResult :=
  raw_results.map (fun raw =>
    { title := raw.title
      authors := extract_authors_from_snippet raw.snippet
      journal := "Google Scholar"
      publication_date := raw.year
      doi := none
      pmid := none
      url := raw.url
      abstract := pyTake raw.snippet 500
      result_type := .other
      relevance_score := 0 })

/-- Digits to a number (regex group `(\d+)` then Python `int`). -/
def digitsToNat (ds : List Char) : Nat :=
  ds.foldl (fun n c => n * 10 + (c.toNat - 48)) 0

/-- `re.search(r'SCORE:\s*(\d+)', response)`: scan for the first
occurrence of `SCORE:` followed (after whitespace) by at least one digit. -/
def scanScore : List Char → Option Nat
  | [] => none
  | c :: rest =>
    if hasPre "SCORE:".data (c :: rest) then
      let after := ((c :: rest).drop 6).dropWhile Char.isWhitespace
      let ds := after.takeWhile Char.isDigit
      if ds ≠ [] then some (digitsToNat ds) else scanScore rest
    else scanScore rest

/-- Effect oracle for the per-record AI relevance call: models
`self.ai_checker._call_gemini_api(prompt)` where the prompt is built from
the record and the keywords (error = raised exception). -/
structure RelevanceOracle where
  callGemini : SearchResult → List String → Except String String

/-- `GoogleScholarScraper._check_relevance_with_ai`: its internal
try/except turns any API failure into `(True, 0.5)`. -/
def check_relevance_with_ai (o : RelevanceOracle) (result : SearchResult)
    (keywords : List String) : Bool × ℚ :=
  match o.callGemini result keywords with
  | .error _ => (true, mkRat 5 10)
  | .ok response =>
    let is_relevant := pyIn "YES" (pyUpper response)
    let score : ℚ :=
      match scanScore response.data with
      | some n => mkRat n 100
      | none => mkRat 5 10
    (is_relevant, score)

/-- `GoogleScholarScraper._filter_relevant_papers`, parameterized by the
outcome of the per-record relevance check (`.error` = the check raised,
handled by the loop's own `except` which keeps the record at score 0.5):
relevant records get their AI score, irrelevant ones are dropped, and the
kept records are sorted by descending relevance score. -/
def filter_relevant_papers (checkOutcome : SearchResult → Except String (Bool × ℚ))
    (results : List SearchResult) : List SearchResult :=
  let relevant_results := results.filterMap (fun r =>
    match checkOutcome r with
    | .ok (true, s) => some { r with relevance_score := s }
    | .ok (false, _) => none
    | .error _ => some { r with relevance_score := mkRat 5 10 })
  relevant_results.mergeSort (fun a b => decide (b.relevance_score ≤ a.relevance_score))

/-- `GoogleScholarScraper._build_scholar_query`. -/
def build_scholar_query (keywords : List String) : String :=
  let important_terms := (keywords.filter (fun kw =>
    ["egfr", "osimertinib", "erlotinib", "nephrotoxicity", "glomerulonephritis"].any
      (fun t => pyIn t (pyLower kw)))).map (fun kw => "\"" ++ kw ++ "\"")
  if important_terms ≠ [] then
    pyJoin " " important_terms ++ " site:scholar.google.com"
  else
    pyJoin " " ((keywords.take 3).map (fun kw => "\"" ++ kw ++ "\""))
      ++ " site:scholar.google.com"

/-- Effect oracle for the scraping transport: one `requests.get` +
BeautifulSoup parse for a (query, page) pair, reduced to the result
containers found on the page (error = raised exception). -/
structure ScraperOracle where
  fetchPage : String → Nat → Except String (List ScholarContainer)

/-- Page loop of `GoogleScholarScraper._scrape_search_results`: a failing
page breaks the loop (keeping earlier pages), and the loop stops early
once `limit` results are accumulated. -/
def scrapeLoop (o : ScraperOracle) (query : String) (limit : Nat) :
    List Nat → List RawScholarResult → List RawScholarResult
  | [], acc => acc
  | page :: pages, acc =>
    match o.fetchPage query page with
    | .error _ => acc
    | .ok containers =>
      let acc2 := acc ++ containers.filterMap parse_single_result
      if limit ≤ acc2.length then acc2 else scrapeLoop o query limit pages acc2

/-- `GoogleScholarScraper._scrape_search_results`. -/
def scrape_search_results (o : ScraperOracle) (query : String) (limit : Nat) :
    List RawScholarResult :=
  let num_pages := min 3 (limit / 10 + 1)
  (scrapeLoop o query limit (List.range num_pages) []).take limit

/-- `GoogleScholarScraper.search`. -/
def scraper_search (o : ScraperOracle)
    (checkOutcome : SearchResult → Except String (Bool × ℚ)) (ai_enabled : Bool)
    (keywords : List String) (source : String) (limit : Nat) : List SearchResult :=
  if pyLower source ≠ "google scholar" then []
  else
    let query := build_scholar_query keywords
    let raw_results := scrape_search_results o query limit
    let search_results := convert_to_search_results raw_results
    if ai_enabled then filter_relevant_papers checkOutcome search_results
    else search_results

/-! ## `src/main.py` (`ResearchAgentService.execute_search`) -/

/-- The analysis loop of `execute_search`: every aggregated record has its
relevance score recomputed by the additive scheme and its type re-derived
from its title, whatever the backend had assigned. -/
def execute_search_scoring (query : ResearchQuery) (all_results : List SearchResult) :
    List SearchResult :=
  all_results.map (fun result =>
    { result with
        relevance_score := analyze_relevance result query
        result_type := classify_paper_type result })

/-! ## Concrete inputs used by witnesses and counterexamples -/

/-- A sample normalized record with the given title, abstract and score. -/
def sampleResult (title abstract : String) (score : ℚ) : SearchResult :=
  { title := title
    authors := ["Author A"]
    journal := "Journal"
    publication_date := "2024"
    doi := none
    pmid := none
    url := "https://example.org/"
    abstract := abstract
    result_type := .other
    relevance_score := score }

/-- Oracle for a PubMed search whose transport always succeeds with no
identifiers. -/
def okEmptyPubMedOracle : PubMedOracle :=
  { searchIds := fun _ _ => .ok []
    fetchBatch := fun _ => .ok [] }

/-- Oracle for an AI-prompted search whose call returns an empty text. -/
def okEmptyGeminiOracle : GeminiOracle :=
  { callApi := fun _ => .ok "" }

/-- Oracle for a scrape whose pages are all empty. -/
def okEmptyScraperOracle : ScraperOracle :=
  { fetchPage := fun _ _ => .ok [] }

/-- A relevance-check outcome that always succeeds with full relevance. -/
def alwaysRelevantCheck : SearchResult → Except String (Bool × ℚ) :=
  fun _ => .ok (true, 1)

/-- A `DocumentSummary` element whose `Title` child holds a normal title
and with no author, journal, date or id children. -/
def c2doc : XmlElem :=
  { tag := "DocumentSummary"
    attrs := [("uid", "111")]
    text := none
    children := [{ tag := "Title", attrs := [], text := some "Osimertinib and the kidney: a case", children := [] }] }

/-- The record `_parse_document_summary` produces from `c2doc`. -/
def c2rec : SearchResult :=
  { title := "Osimertinib and the kidney: a case"
    authors := ["Unknown Author"]
    journal := "Unknown Journal"
    publication_date := "Unknown Date"
    doi := none
    pmid := some "111"
    url := "https://pubmed.ncbi.nlm.nih.gov/111/"
    abstract := "Osimertinib and the kidney: a case"
    result_type := .other
    relevance_score := 0 }

/-- A PubMed oracle returning 21 identifiers (hence two batches), whose
detail fetch succeeds on the full-size batch and fails on the second. -/
def c2oracle : PubMedOracle :=
  { searchIds := fun _ _ => .ok (List.replicate 21 "1")
    fetchBatch := fun ids => if ids.length = 20 then .ok [c2doc] else .error "batch fetch failed" }

/-- Five records entering the AI relevance gate. -/
def c3p1 : SearchResult := sampleResult "Paper one" "abstract one" 0
def c3p2 : SearchResult := sampleResult "Paper two" "abstract two" 0
def c3p3 : SearchResult := sampleResult "Paper three" "abstract three" 0
def c3p4 : SearchResult := sampleResult "Paper four" "abstract four" 0
def c3p5 : SearchResult := sampleResult "Paper five" "abstract five" 0

def c3records : List SearchResult := [c3p1, c3p2, c3p3, c3p4, c3p5]

/-- A per-record relevance-check outcome that raises on the third record
and returns distinct AI scores for the others. -/
def c3check : SearchResult → Except String (Bool × ℚ) := fun r =>
  if r.title = "Paper three" then .error "AI relevance check failed"
  else if r.title = "Paper one" then .ok (true, mkRat 9 10)
  else if r.title = "Paper two" then .ok (true, mkRat 7 10)
  else if r.title = "Paper four" then .ok (true, mkRat 6 10)
  else .ok (true, mkRat 2 10)

/-- A `DocumentSummary` whose `Title` text is shorter than 10 characters. -/
def shortTitleDoc : XmlElem :=
  { tag := "DocumentSummary"
    attrs := [("uid", "222")]
    text := none
    children := [{ tag := "Title", attrs := [], text := some "Gout.", children := [] }] }

/-- The record `_parse_document_summary` produces from `shortTitleDoc`. -/
def shortTitleRec : SearchResult :=
  { title := "Gout."
    authors := ["Unknown Author"]
    journal := "Unknown Journal"
    publication_date := "Unknown Date"
    doi := none
    pmid := some "222"
    url := "https://pubmed.ncbi.nlm.nih.gov/222/"
    abstract := "Gout."
    result_type := .other
    relevance_score := 0 }

/-- A scraped result container whose heading text is shorter than
10 characters. -/
def shortContainer : ScholarContainer :=
  { titleText := some "Gout"
    linkHref := some (some "http://example.org/g")
    snippetText := none
    citeText := none }

/-- A delimited-text AI response with two well-formed blocks. -/
def c7payload : String :=
  "Here are the papers:\nPAPER_START\nTitle: Osimertinib associated nephrotoxicity in NSCLC\nAuthors: Smith J, Doe A\nJournal: Kidney Journal\nYear: 2023\nPMID: 12345\nDOI: 10.1000/x\nURL: https://example.com/p1\nAbstract: A study of kidney injury under osimertinib.\nType: case_report\nPAPER_END\nPAPER_START\nTitle: EGFR inhibitors and renal outcomes review\nAuthors: Lee B, Park C\nJournal: Oncology Review\nYear: 2024\nPMID: 67890\nDOI: 10.1000/y\nURL: https://example.com/p2\nAbstract: A systematic overview of renal outcomes.\nType: systematic_review\nPAPER_END\nEnd."

/-- The first record parsed from `c7payload`. -/
def c7rec1 : SearchResult :=
  { title := "Osimertinib associated nephrotoxicity in NSCLC"
    authors := ["Smith J", "Doe A"]
    journal := "Kidney Journal"
    publication_date := "2023"
    doi := some "10.1000/x"
    pmid := some "12345"
    url := "https://example.com/p1"
    abstract := "A study of kidney injury under osimertinib."
    result_type := .case_report
    relevance_score := mkRat 8 10 }

/-- The second record parsed from `c7payload`. -/
def c7rec2 : SearchResult :=
  { title := "EGFR inhibitors and renal outcomes review"
    authors := ["Lee B", "Park C"]
    journal := "Oncology Review"
    publication_date := "2024"
    doi := some "10.1000/y"
    pmid := some "67890"
    url := "https://example.com/p2"
    abstract := "A systematic overview of renal outcomes."
    result_type := .systematic_review
    relevance_score := mkRat 8 10 }

/-- A query context whose single keyword occurs in no record field. -/
def c6query : ResearchQuery :=
  { original_question := "q", keywords := ["zzz"], sources := ["Google Scholar"] }

/-- A record as the scraped AI gate outputs it: its AI-assessed relevance
score is 9/10. -/
def c6rec : SearchResult :=
  sampleResult "Osimertinib kidney paper kept by the gate" "about EGFR inhibitors" (mkRat 9 10)

/-- The record the delimited-text parser produces from a lone title line. -/
def c9witnessRec : SearchResult :=
  { title := "Osimertinib associated nephrotoxicity in NSCLC"
    authors := ["Unknown Author"]
    journal := "Unknown Journal"
    publication_date := "Unknown"
    doi := none
    pmid := none
    url := ""
    abstract := ""
    result_type := .other
    relevance_score := mkRat 8 10 }

/-! ## Helper lemmas -/

theorem mkRat_three_tenths : (mkRat 3 10 : ℚ) = 3/10 := by
  rw [Rat.mkRat_eq_div]; norm_num

theorem mkRat_two_tenths : (mkRat 2 10 : ℚ) = 2/10 := by
  rw [Rat.mkRat_eq_div]; norm_num

theorem score_foldl (tl al : String) (l : List String) (init : ℚ) :
    l.foldl
      (fun sc kw =>
        let kl := pyLower kw
        let sc := if pyIn kl tl then sc + mkRat 3 10 else sc
        if pyIn kl al then sc + mkRat 2 10 else sc) init
      = init + (3/10) * (l.countP (fun kw => pyIn (pyLower kw) tl) : ℚ)
             + (2/10) * (l.countP (fun kw => pyIn (pyLower kw) al) : ℚ) := by
  induction l generalizing init with
  | nil => simp
  | cons a t ih =>
    simp only [List.foldl_cons, List.countP_cons, ih]
    by_cases h1 : pyIn (pyLower a) tl <;> by_cases h2 : pyIn (pyLower a) al <;>
      simp [h1, h2, mkRat_three_tenths, mkRat_two_tenths] <;> ring

theorem analyze_relevance_closed (r : SearchResult) (q : ResearchQuery) :
    analyze_relevance r q
      = min ((3/10) * (hitCount q.keywords r.title : ℚ)
              + (2/10) * (hitCount q.keywords r.abstract : ℚ)) 1 := by
  show min _ 1 = _
  rw [score_foldl]
  unfold hitCount
  ring_nf

theorem resultType_mem_all (t : SearchResultType) : t ∈ allResultTypes := by
  cases t <;> simp [allResultTypes]

theorem orGroup_head (ts : List String) : (orGroup ts).data.head? = some '(' := rfl

theorem joinQueryParts_head (fb : String) (parts : List String)
    (hp : ∀ p ∈ parts, p.data.head? = some '(')
    (hfb : fb.data.head? = some '(') :
    (joinQueryParts fb parts).data.head? = some '(' := by
  match parts with
  | [] => exact hfb
  | [p] => exact hp p (by simp)
  | p :: q :: rest =>
    have h := hp p (by simp)
    simp [joinQueryParts, pyJoin, h]

theorem build_query_body_head (keywords : List String) :
    (build_query_body keywords).data.head? = some '(' := by
  unfold build_query_body
  apply joinQueryParts_head
  · intro p hp
    simp only [List.mem_append] at hp
    rcases hp with (hp | hp) | hp <;> (split at hp <;> simp_all [orGroup_head])
  · exact orGroup_head _

theorem fetchBatchesLoop_error (o : PubMedOracle) (bs : List (List String))
    (b : List String) (e : String) (he : o.fetchBatch b = .error e) :
    b ∈ bs → ∀ acc, ∃ e2, fetchBatchesLoop o bs acc = .error e2 := by
  induction bs with
  | nil => intro hb; cases hb
  | cons hd tl ih =>
    intro hb acc
    cases hfb : fetch_batch_details o hd with
    | error e2 => exact ⟨e2, by simp [fetchBatchesLoop, hfb]⟩
    | ok r =>
      have hbt : b ∈ tl := by
        rcases List.mem_cons.mp hb with rfl | hmem
        · exfalso
          simp [fetch_batch_details, he] at hfb
        · exact hmem
      obtain ⟨e2, h2⟩ := ih hbt (acc ++ r)
      exact ⟨e2, by simp [fetchBatchesLoop, hfb, h2]⟩

theorem parse_single_paper_short (text : String)
    (h : pyStrip (removeBrackets (getField text.data "Title:")) = ""
        ∨ pyLen (pyStrip (removeBrackets (getField text.data "Title:"))) < 10) :
    parse_single_paper text = none := by
  simp only [parse_single_paper]
  rw [if_pos h]

theorem parse_single_paper_props (text : String) (rec : SearchResult)
    (h : parse_single_paper text = some rec) :
    rec.title ≠ "" ∧ 10 ≤ pyLen rec.title ∧ 1 ≤ rec.authors.length
      ∧ rec.authors.length ≤ 5 ∧ pyLen rec.abstract ≤ 500
      ∧ rec.result_type ∈ allResultTypes := by
  simp only [parse_single_paper] at h
  split at h
  · cases h
  · next hcond =>
    rw [Option.some.injEq] at h
    subst h
    push_neg at hcond
    refine ⟨hcond.1, hcond.2, ?_, ?_, ?_, resultType_mem_all _⟩
    · show 1 ≤ (List.take 5 _).length
      rw [List.length_take]
      split
      · simp
      · next hne =>
        have := List.length_pos.mpr hne
        omega
    · show (List.take 5 _).length ≤ 5
      rw [List.length_take]
      omega
    · show (List.take 500 _).length ≤ 500
      rw [List.length_take]
      omega

/-! ## Claim theorems -/

/-- Claim C5: for every record and query context the relevance scorer
returns exactly `min (0.3 * t + 0.2 * a) 1`, where `t` and `a` count the
query keywords occurring case-insensitively in the title and in the
abstract respectively; consequently the score always lies in `[0, 1]`. -/
theorem claim_C5 (r : SearchResult) (q : ResearchQuery) :
    analyze_relevance r q
      = min ((3/10) * (hitCount q.keywords r.title : ℚ)
              + (2/10) * (hitCount q.keywords r.abstract : ℚ)) 1
    ∧ 0 ≤ analyze_relevance r q ∧ analyze_relevance r q ≤ 1 := by
  refine ⟨analyze_relevance_closed r q, ?_, ?_⟩
  · rw [analyze_relevance_closed]
    exact le_min (by positivity) (by norm_num)
  · rw [analyze_relevance_closed]
    exact min_le_right _ _

/-- Claim C8: the type classifier inspects only the title,
case-insensitively, trying the fixed phrases in priority order
case report, systematic review, meta-analysis, clinical trial, and
returns `other` when none occurs; a title containing both "case report"
and "meta-analysis" is classified as a case report. -/
theorem claim_C8 :
    (∀ r r' : SearchResult, r.title = r'.title →
        classify_paper_type r = classify_paper_type r')
    ∧ (∀ r : SearchResult,
        (pyIn "case report" (pyLower r.title) = true →
            classify_paper_type r = .case_report)
        ∧ (pyIn "case report" (pyLower r.title) = false →
            pyIn "systematic review" (pyLower r.title) = true →
            classify_paper_type r = .systematic_review)
        ∧ (pyIn "case report" (pyLower r.title) = false →
            pyIn "systematic review" (pyLower r.title) = false →
            pyIn "meta-analysis" (pyLower r.title) = true →
            classify_paper_type r = .meta_analysis)
        ∧ (pyIn "case report" (pyLower r.title) = false →
            pyIn "systematic review" (pyLower r.title) = false →
            pyIn "meta-analysis" (pyLower r.title) = false →
            pyIn "clinical trial" (pyLower r.title) = true →
            classify_paper_type r = .clinical_study)
        ∧ (pyIn "case report" (pyLower r.title) = false →
            pyIn "systematic review" (pyLower r.title) = false →
            pyIn "meta-analysis" (pyLower r.title) = false →
            pyIn "clinical trial" (pyLower r.title) = false →
            classify_paper_type r = .other))
    ∧ classify_paper_type
        (sampleResult "Osimertinib case report and meta-analysis of renal events" "" 0)
        = .case_report := by
  refine ⟨?_, ?_, by decide⟩
  · intro r r' h
    simp [classify_paper_type, h]
  · intro r
    refine ⟨fun h1 => ?_, fun h1 h2 => ?_, fun h1 h2 h3 => ?_,
      fun h1 h2 h3 h4 => ?_, fun h1 h2 h3 h4 => ?_⟩ <;>
      simp [classify_paper_type, h1] <;> simp_all

/-- Claim C8 witness: the priority cases applied at concrete records. -/
theorem claim_C8_witness :
    classify_paper_type (sampleResult "A case report on gefitinib" "" 0) = .case_report
    ∧ classify_paper_type (sampleResult "A systematic review of erlotinib" "" 0)
        = .systematic_review
    ∧ classify_paper_type (sampleResult "An updated meta-analysis" "" 0) = .meta_analysis
    ∧ classify_paper_type (sampleResult "A renal clinical trial" "" 0) = .clinical_study
    ∧ classify_paper_type (sampleResult "An observational cohort" "" 0) = .other :=
  ⟨(claim_C8.2.1 (sampleResult "A case report on gefitinib" "" 0)).1 (by decide),
   ((claim_C8.2.1 (sampleResult "A systematic review of erlotinib" "" 0)).2.1
      (by decide) (by decide)),
   ((claim_C8.2.1 (sampleResult "An updated meta-analysis" "" 0)).2.2.1
      (by decide) (by decide) (by decide)),
   ((claim_C8.2.1 (sampleResult "A renal clinical trial" "" 0)).2.2.2.1
      (by decide) (by decide) (by decide) (by decide)),
   ((claim_C8.2.1 (sampleResult "An observational cohort" "" 0)).2.2.2.2
      (by decide) (by decide) (by decide) (by decide))⟩

/-- Claim C10: the deterministic keyword extractor never returns an empty
list; when no lexicon term occurs in the question it returns exactly the
default pair, and otherwise every returned keyword is a lexicon term that
occurs case-insensitively in the question. -/
theorem claim_C10 (question : String) :
    extract_keywords question ≠ []
    ∧ ((∀ kw ∈ medical_keywords, pyIn (pyLower kw) (pyLower question) = false) →
        extract_keywords question = ["EGFR inhibitor", "glomerulonephritis"])
    ∧ (extract_keywords question = ["EGFR inhibitor", "glomerulonephritis"]
        ∨ ∀ kw ∈ extract_keywords question,
            kw ∈ medical_keywords ∧ pyIn (pyLower kw) (pyLower question) = true) := by
  by_cases hc : medical_keywords.filter
      (fun kw => pyIn (pyLower kw) (pyLower question)) = []
  · refine ⟨by simp [extract_keywords, hc], fun _ => by simp [extract_keywords, hc], ?_⟩
    left
    simp [extract_keywords, hc]
  · refine ⟨by simp [extract_keywords, hc], fun h => absurd ?_ hc, ?_⟩
    · rw [List.filter_eq_nil_iff]
      intro kw hkw
      simp [h kw hkw]
    · right
      intro kw hkw
      simp only [extract_keywords, if_neg hc] at hkw
      exact List.mem_filter.mp hkw

/-- Claim C10 witness: a question with no lexicon term yields the default
pair. -/
theorem claim_C10_witness :
    extract_keywords "hello" = ["EGFR inhibitor", "glomerulonephritis"] :=
  (claim_C10 "hello").2.1 (by decide)

/-- Claim C1: each backend returns the empty list (and, the fallible calls
being explicit `Except` oracles, cannot raise) whenever the requested
source name is not one it recognizes, whatever the oracle behavior. -/
theorem claim_C1 :
    (∀ (o : PubMedOracle) (keywords : List String) (source : String) (limit : Nat),
        pyLower source ≠ "pubmed" →
        pubmed_search o keywords source limit = [])
    ∧ (∀ (o : GeminiOracle) (year : Nat) (keywords : List String) (source : String)
          (limit : Nat),
        pyLower source ∉ (["google scholar", "pubmed", "academic search"] : List String) →
        gemini_search o year keywords source limit = [])
    ∧ (∀ (o : ScraperOracle) (check : SearchResult → Except String (Bool × ℚ))
          (ai_enabled : Bool) (keywords : List String) (source : String) (limit : Nat),
        pyLower source ≠ "google scholar" →
        scraper_search o check ai_enabled keywords source limit = []) := by
  refine ⟨?_, ?_, ?_⟩
  · intro o kws src lim h
    simp [pubmed_search, h]
  · intro o y kws src lim h
    have hc : (["google scholar", "pubmed", "academic search"] : List String).contains
        (pyLower src) = false := by
      simpa using h
    unfold gemini_search
    rw [hc]
    simp
  · intro o check ai kws src lim h
    simp [scraper_search, h]

/-- Claim C1 witness: the three backends on the unrecognized source
"arxiv". -/
theorem claim_C1_witness :
    pubmed_search okEmptyPubMedOracle ["kidney"] "arxiv" 5 = []
    ∧ gemini_search okEmptyGeminiOracle 2026 ["kidney"] "arxiv" 5 = []
    ∧ scraper_search okEmptyScraperOracle alwaysRelevantCheck true ["kidney"] "arxiv" 5 = [] :=
  ⟨claim_C1.1 okEmptyPubMedOracle ["kidney"] "arxiv" 5 (by decide),
   claim_C1.2.1 okEmptyGeminiOracle 2026 ["kidney"] "arxiv" 5 (by decide),
   claim_C1.2.2 okEmptyScraperOracle alwaysRelevantCheck true ["kidney"] "arxiv" 5 (by decide)⟩

/-- Claim C4 (amended): the query builder never fails, and for every
keyword list the built query is non-empty: it is a parenthesized body
followed by the trailing date filter.  However, for the empty keyword
list the body is the empty OR-group `()`, so the built query is
`"() AND 2014:2024[pdat]"` rather than only the trailing filter. -/
theorem claim_C4 :
    build_search_query [] = "() AND 2014:2024[pdat]"
    ∧ (∀ keywords : List String,
        build_search_query keywords = build_query_body keywords ++ " AND 2014:2024[pdat]"
        ∧ (build_query_body keywords).data.head? = some '('
        ∧ 0 < pyLen (build_search_query keywords)) := by
  refine ⟨rfl, fun kws => ⟨rfl, build_query_body_head kws, ?_⟩⟩
  have h20 : (" AND 2014:2024[pdat]" : String).data.length = 20 := rfl
  simp [pyLen, build_search_query, List.length_append, h20]

/-- Claim C4 counterexample: on the empty keyword list the built query is
`"() AND 2014:2024[pdat]"`, which is not only the trailing
publication-date filter. -/
theorem claim_C4_counterexample :
    build_search_query [] = "() AND 2014:2024[pdat]"
    ∧ build_search_query [] ≠ "2014:2024[pdat]"
    ∧ build_search_query [] ≠ " AND 2014:2024[pdat]"
    ∧ pyStartsWith "()" (build_search_query []) = true := by
  refine ⟨rfl, by decide, by decide, by decide⟩

/-- Claim C2 (amended): the batch loop has no per-batch exception handler,
so a failing detail fetch for any batch propagates to the top-level
handler of `search`, which returns the empty list: the records of the
sibling batches are dropped along with it (only per-document parse
failures within a successfully fetched batch are skipped individually). -/
theorem claim_C2 (o : PubMedOracle) (keywords : List String) (source : String)
    (limit : Nat) (ids : List String) (b : List String) (e : String)
    (hsrc : pyLower source = "pubmed")
    (hids : o.searchIds (build_search_query keywords) limit = .ok ids)
    (hne : ids ≠ [])
    (hb : b ∈ batches20 ids)
    (he : o.fetchBatch b = .error e) :
    pubmed_search o keywords source limit = [] := by
  obtain ⟨e2, hloop⟩ := fetchBatchesLoop_error o (batches20 ids) b e he hb []
  simp [pubmed_search, hsrc, hids, hne, fetch_paper_details, hloop]

/-- Claim C2 counterexample: with 21 identifiers (a full batch of 20 and a
sibling batch of 1), a successful first batch producing a record and a
failing second batch, the search returns the empty list, so the first
batch's record is not returned either. -/
theorem claim_C2_counterexample :
    fetch_batch_details c2oracle (List.replicate 20 "1") = .ok [c2rec]
    ∧ List.replicate 20 "1" ∈ batches20 (List.replicate 21 "1")
    ∧ c2oracle.searchIds (build_search_query ["kidney"]) 21
        = .ok (List.replicate 21 "1")
    ∧ pubmed_search c2oracle ["kidney"] "PubMed" 21 = []
    ∧ c2rec ∉ pubmed_search c2oracle ["kidney"] "PubMed" 21 := by
  have hempty : pubmed_search c2oracle ["kidney"] "PubMed" 21 = [] := rfl
  exact ⟨rfl, by decide, rfl, hempty, by rw [hempty]; simp⟩

/-- Claim C2 witness: the amended theorem applied at the concrete
two-batch oracle. -/
theorem claim_C2_witness :
    pubmed_search c2oracle ["kidney"] "PubMed" 21 = [] :=
  claim_C2 c2oracle ["kidney"] "PubMed" 21 (List.replicate 21 "1") ["1"]
    "batch fetch failed" (by decide) rfl (by decide) (by decide) rfl

/-- Claim C6 (amended): the aggregation loop of `execute_search`
recomputes every record's relevance score with the additive scheme
(and its type tag from the title), overwriting whatever score the backend
assigned — including the scraped backend's AI-assessed scores, which
therefore would not survive this loop (the scraped backend is, moreover,
not registered in the service's engine map). -/
theorem claim_C6 (query : ResearchQuery) (results : List SearchResult) :
    (execute_search_scoring query results).map (fun r => r.relevance_score)
      = results.map (fun r => analyze_relevance r query)
    ∧ (execute_search_scoring query results).map (fun r => r.result_type)
      = results.map (fun r => classify_paper_type r) := by
  constructor <;> simp [execute_search_scoring, List.map_map]

/-- Claim C6 counterexample: a record carrying the gate-assigned score
9/10 comes out of the aggregation loop with the additive score 0 (its
query keyword hits nothing), so the AI-assessed score is not its final
score. -/
theorem claim_C6_counterexample :
    c6rec.relevance_score = mkRat 9 10
    ∧ execute_search_scoring c6query [c6rec] = [{ c6rec with relevance_score := 0 }]
    ∧ mkRat 9 10 ≠ (0 : ℚ) := by
  exact ⟨rfl, rfl, by decide⟩

-- The AI relevance gate evaluated on the five-record scenario: the
-- third record's check raises, the others return distinct scores.
unseal List.merge List.mergeSort in
theorem c3_concrete_eval :
    filter_relevant_papers c3check c3records
      = [{ c3p1 with relevance_score := mkRat 9 10 },
         { c3p2 with relevance_score := mkRat 7 10 },
         { c3p4 with relevance_score := mkRat 6 10 },
         { c3p3 with relevance_score := mkRat 5 10 },
         { c3p5 with relevance_score := mkRat 2 10 }] := rfl

/-- Claim C3: in the scraped backend's AI relevance gate, a record whose
per-record check raises is kept with score exactly 0.5, a record whose
check succeeds as relevant gets its AI score, every output record arises
in one of these two ways (so records judged not relevant are dropped);
and in the five-record scenario with exactly one failing check, that
record is kept at 0.5 while the other four carry their AI scores. -/
theorem claim_C3 (check : SearchResult → Except String (Bool × ℚ))
    (results : List SearchResult) (r : SearchResult) (hr : r ∈ results) :
    (∀ e, check r = .error e →
        { r with relevance_score := mkRat 5 10 } ∈ filter_relevant_papers check results)
    ∧ (∀ s, check r = .ok (true, s) →
        { r with relevance_score := s } ∈ filter_relevant_papers check results)
    ∧ (∀ x ∈ filter_relevant_papers check results, ∃ r0, r0 ∈ results ∧
        ((∃ s, check r0 = .ok (true, s) ∧ x = { r0 with relevance_score := s })
          ∨ (∃ e, check r0 = .error e ∧ x = { r0 with relevance_score := mkRat 5 10 })))
    ∧ mkRat 5 10 = (1 : ℚ)/2
    ∧ filter_relevant_papers c3check c3records
        = [{ c3p1 with relevance_score := mkRat 9 10 },
           { c3p2 with relevance_score := mkRat 7 10 },
           { c3p4 with relevance_score := mkRat 6 10 },
           { c3p3 with relevance_score := mkRat 5 10 },
           { c3p5 with relevance_score := mkRat 2 10 }] := by
  refine ⟨?_, ?_, ?_, by rw [Rat.mkRat_eq_div]; norm_num, c3_concrete_eval⟩
  · intro e he
    unfold filter_relevant_papers
    rw [List.mem_mergeSort]
    exact List.mem_filterMap.mpr ⟨r, hr, by simp [he]⟩
  · intro s hs
    unfold filter_relevant_papers
    rw [List.mem_mergeSort]
    exact List.mem_filterMap.mpr ⟨r, hr, by simp [hs]⟩
  · intro x hx
    unfold filter_relevant_papers at hx
    rw [List.mem_mergeSort] at hx
    obtain ⟨r0, hr0, hf⟩ := List.mem_filterMap.mp hx
    refine ⟨r0, hr0, ?_⟩
    cases hc : check r0 with
    | error e =>
      rw [hc] at hf
      simp only [Option.some.injEq] at hf
      exact Or.inr ⟨e, rfl, hf.symm⟩
    | ok p =>
      obtain ⟨b, s⟩ := p
      cases b
      · rw [hc] at hf
        simp at hf
      · rw [hc] at hf
        simp only [Option.some.injEq] at hf
        exact Or.inl ⟨s, rfl, hf.symm⟩

/-- Claim C3 witness: the failing-check record of the scenario is kept at
score 0.5. -/
theorem claim_C3_witness :
    { c3p3 with relevance_score := mkRat 5 10 } ∈ filter_relevant_papers c3check c3records :=
  (claim_C3 c3check c3records c3p3 (by decide)).1 "AI relevance check failed" rfl

/-- Claim C7: a block whose cleaned title is empty or shorter than 10
characters yields no record; every emitted record has a non-empty title
of at least 10 characters, 1 to 5 authors, an abstract of at most 500
characters and a type tag from the closed set; and the concrete payload
with two well-formed sentinel-delimited blocks parses into exactly the
two expected records. -/
theorem claim_C7 :
    (∀ text : String,
        pyStrip (removeBrackets (getField text.data "Title:")) = ""
          ∨ pyLen (pyStrip (removeBrackets (getField text.data "Title:"))) < 10 →
        parse_single_paper text = none)
    ∧ (∀ (text : String) (rec : SearchResult), parse_single_paper text = some rec →
        rec.title ≠ "" ∧ 10 ≤ pyLen rec.title ∧ 1 ≤ rec.authors.length
          ∧ rec.authors.length ≤ 5 ∧ pyLen rec.abstract ≤ 500
          ∧ rec.result_type ∈ allResultTypes)
    ∧ parse_ai_response c7payload = [c7rec1, c7rec2]
    ∧ (splitPapers c7payload.data).length = 2 :=
  ⟨parse_single_paper_short, parse_single_paper_props, rfl, rfl⟩

/-- Claim C7 witness: a block whose cleaned title is the 5-character word
"short" yields no record. -/
theorem claim_C7_witness :
    parse_single_paper "Title: short\nAuthors: X" = none :=
  claim_C7.1 "Title: short\nAuthors: X" (by decide)

/-- Claim C9 (amended): only the delimited-text parser guarantees a
non-empty title of at least 10 characters; the structured-XML and
HTML-snippet parsers emit whatever title text the payload carries, which
can be shorter than 10 characters. -/
theorem claim_C9 :
    (∀ (text : String) (rec : SearchResult), parse_single_paper text = some rec →
        rec.title ≠ "" ∧ 10 ≤ pyLen rec.title)
    ∧ (parse_document_summary shortTitleDoc = some shortTitleRec
        ∧ pyLen shortTitleRec.title < 10)
    ∧ ((convert_to_search_results ([shortContainer].filterMap parse_single_result)).map
          (fun r => r.title) = ["Gout"]
        ∧ pyLen "Gout" < 10) :=
  ⟨fun text rec h => ⟨(parse_single_paper_props text rec h).1,
      (parse_single_paper_props text rec h).2.1⟩,
   ⟨rfl, by decide⟩, ⟨rfl, by decide⟩⟩

/-- Claim C9 counterexample: the structured-XML parser emits a record
whose title is "Gout.", which has fewer than 10 characters even after
bracket-stripping. -/
theorem claim_C9_counterexample :
    parse_document_summary shortTitleDoc = some shortTitleRec
    ∧ shortTitleRec.title = "Gout."
    ∧ pyLen (pyStrip (removeBrackets shortTitleRec.title)) < 10 :=
  ⟨rfl, rfl, by decide⟩

/-- Claim C9 witness: the delimited-text guarantee applied at a concrete
block. -/
theorem claim_C9_witness :
    c9witnessRec.title ≠ "" ∧ 10 ≤ pyLen c9witnessRec.title :=
  claim_C9.1 "Title: Osimertinib associated nephrotoxicity in NSCLC" c9witnessRec rfl

end EgfrAgent
